import Mathlib

/-!
Verification development for the AI-CLINICAL-PHARMACIST single-page
application.  The TypeScript sources (src/App.tsx,
src/services/geminiService.ts, src/types.ts) are shallowly embedded:
React state becomes an explicit `AppState` record, event handlers become
state-transition functions, and the Gemini service becomes pure functions
parameterised by the remote outcome and by a JSON-parsing oracle.
JavaScript string primitives (`trim`, `split`, `replace` with a global
pattern) are embedded as structurally recursive functions on `List Char`
with the same semantics, so that all definitions evaluate.
-/

/-! ### JavaScript string primitives -/

/-- JS `String.prototype.trim`: drop whitespace from both ends. -/
def jsTrim (s : String) : String :=
  String.mk (((s.data.dropWhile Char.isWhitespace).reverse.dropWhile Char.isWhitespace).reverse)

/-- Fuelled worker for JS `String.prototype.split` with a string separator:
scan left to right, cutting at each non-overlapping occurrence of `sep`. -/
def splitImpl (sep : List Char) : Nat → List Char → List Char → List (List Char)
  | 0, acc, s => [acc.reverse ++ s]
  | _ + 1, acc, [] => [acc.reverse]
  | fuel + 1, acc, c :: rest =>
    if sep.isPrefixOf (c :: rest) then
      acc.reverse :: splitImpl sep fuel [] (List.drop sep.length (c :: rest))
    else
      splitImpl sep fuel (c :: acc) rest

/-- JS `s.split(sep)` for a non-empty string separator. -/
def jsSplit (s sep : String) : List String :=
  (splitImpl sep.data (s.data.length + 1) [] s.data).map String.mk

/-- Fuelled worker for JS `s.replace(/pat/g, "")`: delete every
non-overlapping occurrence of `pat`, scanning left to right. -/
def deleteAllImpl (pat : List Char) : Nat → List Char → List Char
  | 0, s => s
  | _ + 1, [] => []
  | fuel + 1, c :: rest =>
    if pat.isPrefixOf (c :: rest) then
      deleteAllImpl pat fuel (List.drop pat.length (c :: rest))
    else
      c :: deleteAllImpl pat fuel rest

/-- JS `s.replace(/pat/g, "")` for a non-empty pattern `pat`. -/
def jsDeleteAll (s pat : String) : String :=
  String.mk (deleteAllImpl pat.data (s.data.length + 1) s.data)

/-- JS array indexing `xs[i]`, with `""` standing in for `undefined`. -/
def jsAt (xs : List String) (i : Nat) : String :=
  xs.getD i ""

/-! ### Data model (src/types.ts) -/

/-- `riskLevel` union type of `PotentialError` ('Low' | 'Moderate' | 'High'). -/
inductive RiskLevel where
  | Low
  | Moderate
  | High
deriving DecidableEq, Repr

/-- `status` union type of `LabValue` ('Normal' | 'Low' | 'High' | 'Abnormal'). -/
inductive LabStatus where
  | Normal
  | Low
  | High
  | Abnormal
deriving DecidableEq, Repr

/-- `PotentialError` from src/types.ts. -/
structure PotentialError where
  errorType : String
  riskLevel : RiskLevel
  error : String
  explanation : String
deriving DecidableEq, Repr

/-- `DrugInfo` from src/types.ts. -/
structure DrugInfo where
  drugName : String
  drugClass : String
  mechanismOfAction : String
  indication : String
  prescribedDose : String
  standardDose : String
  adverseEffects : String
  monitoring : String
  precautions : String
deriving DecidableEq, Repr

/-- `LabValue` from src/types.ts. -/
structure LabValue where
  parameter : String
  value : String
  unit : String
  status : LabStatus
  interpretation : String
deriving DecidableEq, Repr

/-- `AnalysisResult` from src/types.ts. -/
structure AnalysisResult where
  potentialErrors : List PotentialError
  drugInformation : List DrugInfo
  labInterpretation : List LabValue
deriving DecidableEq, Repr

/-! ### Gemini service (src/services/geminiService.ts) -/

/-- A part of the `contents` payload sent to `ai.models.generateContent`:
either `\x7b inlineData: \x7b data, mimeType \x7d \x7d` or `\x7b text \x7d`. -/
inductive ContentPart where
  | inlineData (data : String) (mimeType : String)
  | text (t : String)
deriving DecidableEq, Repr

/-- The `contents` object `\x7b parts: [...] \x7d` of an outbound request. -/
structure GenContents where
  parts : List ContentPart
deriving DecidableEq, Repr

/-- The fixed instruction prompt (`basePrompt` template literal). -/
def basePrompt : String :=
  "\n  Act as an expert AI Clinical Pharmacist. Your task is to analyze the provided medical information with the highest degree of clinical accuracy.\n  Your analysis must be structured according to the provided JSON schema and based on established clinical guidelines (e.g., WHO, NICE, KDIGO).\n\n  1.  **Medication Error Detection:** Scrutinize all prescribed medications. Identify and report any potential errors including, but not limited to:\n      -   Incorrect drug, dose, frequency, or duration.\n      -   Significant drug-drug interactions.\n      -   Contraindications based on diagnosis or lab values (e.g., Metformin with low eGFR).\n      -   Duplicate therapy.\n      -   Allergy-related errors if information is available.\n      For each error, specify the type, assess the clinical risk level (Low, Moderate, High), and provide a clear, concise explanation referencing clinical principles or guidelines.\n\n  2.  **Lab Value Interpretation:** If lab results are present, identify any abnormal values. For each, state the parameter, its value, status (Normal, Low, High), and its clinical significance, especially in relation to the prescribed medications.\n\n  3.  **Drug-wise Professional Explanation:** For EACH drug identified, provide a comprehensive professional summary covering:\n      -   Drug Name (Generic/Brand)\n      -   Class\n      -   Mechanism of Action\n      -   Indication (why it\x27s used)\n      -   Prescribed Dose vs. Standard Dose\n      -   Key Adverse Effects\n      -   Essential Lab Monitoring\n      -   Special Precautions (e.g., renal/hepatic adjustments).\n\n  If a section is not applicable (e.g., no lab results), return an empty array for that key. Your output must be nothing but a valid JSON object that strictly conforms to the schema.\n"

/-- Prompt sent by `analyzeHealthDocument`. -/
def documentPrompt : String :=
  basePrompt ++ "\n\nThe medical information is in the attached image."

/-- Prompt sent by `analyzeHealthText`: the base prompt with the user text
embedded between `---` delimiters. -/
def textModePrompt (text : String) : String :=
  basePrompt ++ "\n\nHere is the medical text to analyze:\n\n---\n" ++ text ++ "\n---"

/-- `analyzeHealthDocument`: builds the contents with an inline image part
followed by a text prompt part. -/
def analyzeHealthDocument (base64ImageData : String) (mimeType : String) : GenContents :=
  { parts := [ContentPart.inlineData base64ImageData mimeType, ContentPart.text documentPrompt] }

/-- `analyzeHealthText`: builds the contents with a single text part. -/
def analyzeHealthText (text : String) : GenContents :=
  { parts := [ContentPart.text (textModePrompt text)] }

/-- Error message thrown by `performAnalysis` on any failure. -/
def apiErrorMsg : String :=
  "Failed to analyze the document. The API could not process the request."

/-- Outcome of the remote `generateContent` call: either the promise
rejects, or it resolves with a response whose `text` is the given string
(`""` standing for an absent/empty body). -/
inductive ApiOutcome where
  | throws
  | ok (text : String)
deriving DecidableEq, Repr

/-- The fence-stripping step of `performAnalysis`:
`response.text.replace(/three-backtick-json/g, '').replace(/three-backticks/g, '').trim()`. -/
def stripFences (t : String) : String :=
  jsTrim (jsDeleteAll (jsDeleteAll t "```json") "```")

/-- `performAnalysis`, parameterised by a JSON-parsing oracle `parse`
standing for `JSON.parse` restricted to the declared response schema
(`none` = `JSON.parse` throws).  A thrown error of any kind is caught and
replaced by the single generic API error. -/
def performAnalysis (parse : String → Option AnalysisResult) (o : ApiOutcome) :
    Except String AnalysisResult :=
  match o with
  | ApiOutcome.throws => Except.error apiErrorMsg
  | ApiOutcome.ok t =>
    if t = "" then Except.error apiErrorMsg
    else
      match parse (stripFences t) with
      | some r => Except.ok r
      | none => Except.error apiErrorMsg

/-- The three failure kinds of an analysis attempt: the call throws, the
body is empty, or the body does not parse after fence-stripping. -/
def isFailureOutcome (parse : String → Option AnalysisResult) : ApiOutcome → Bool
  | ApiOutcome.throws => true
  | ApiOutcome.ok t => t = "" || (parse (stripFences t)).isNone

/-- Error message of the module-level API-key guard in geminiService.ts. -/
def keyErrorMsg : String := "API_KEY environment variable not set"

/-- The loaded service module: holds the constructed `GoogleGenAI` client
(represented by its API key). -/
structure GeminiModule where
  apiKey : String
deriving DecidableEq, Repr

/-- Module initialization of geminiService.ts: `process.env.API_KEY` is
`none` (unset) or `some s`; a falsy value (unset or empty) throws at load
time, otherwise the client is constructed and the module loads. -/
def loadGeminiService (envApiKey : Option String) : Except String GeminiModule :=
  match envApiKey with
  | none => Except.error keyErrorMsg
  | some k => if k = "" then Except.error keyErrorMsg else Except.ok { apiKey := k }

/-! ### Application state (src/App.tsx) -/

/-- The `InputMode` union type. -/
inductive InputMode where
  | upload
  | text
  | voice
deriving DecidableEq, Repr

/-- The `Tab` union type. -/
inductive Tab where
  | errors
  | drugs
  | labs
deriving DecidableEq, Repr

/-- A DOM `File`, represented by the data URL its `FileReader` produces
(`reader.readAsDataURL`), which is all `fileToBase64` consumes. -/
structure JsFile where
  dataUrl : String
deriving DecidableEq, Repr

/-- The React state of the `App` component. -/
structure AppState where
  file : Option JsFile
  previewUrl : Option String
  inputText : String
  inputMode : InputMode
  analysisResult : Option AnalysisResult
  isLoading : Bool
  error : Option String
  activeTab : Tab
  isRecording : Bool
deriving DecidableEq, Repr

/-- The initial state set by the `useState` initialisers. -/
def initAppState : AppState :=
  { file := none
    previewUrl := none
    inputText := ""
    inputMode := InputMode.upload
    analysisResult := none
    isLoading := false
    error := none
    activeTab := Tab.errors
    isRecording := false }

/-- `clearAnalysis`. -/
def clearAnalysis (s : AppState) : AppState :=
  { s with analysisResult := none, error := none, activeTab := Tab.errors }

/-- The mode-tab buttons: `onClick=\x7b() => setInputMode(m)\x7d`. -/
def setInputMode (m : InputMode) (s : AppState) : AppState :=
  { s with inputMode := m }

/-- `handleTextChange`: store the new textarea value, then clear the
analysis if a result or error is displayed. -/
def handleTextChange (v : String) (s : AppState) : AppState :=
  let s1 := { s with inputText := v }
  if s1.analysisResult.isSome || s1.error.isSome then clearAnalysis s1 else s1

/-- `fileToBase64`: parse the data URL exactly as the source does with
`split(';')[0].split(':')[1]` and `split(',')[1]`, returning
`(mimeType, data)`. -/
def fileToBase64 (f : JsFile) : String × String :=
  let result := f.dataUrl
  let mimeType := jsAt (jsSplit (jsAt (jsSplit result ";") 0) ":") 1
  let data := jsAt (jsSplit result ",") 1
  (mimeType, data)

/-- `handleFileChange` with the file selected in the picker (`none` when
the selection is empty, in which case nothing happens).  Selecting a file
stores it, clears the analysis, and (once the reader finishes) sets the
preview URL. -/
def handleFileChange (selected : Option JsFile) (s : AppState) : AppState :=
  match selected with
  | none => s
  | some f => { clearAnalysis { s with file := some f } with previewUrl := some f.dataUrl }

/-- Local validation error set by `handleAnalyze` when input is missing. -/
def inputErrorMsg : String := "Please provide input before analyzing."

/-- Generic UI error set by `handleAnalyze` when the service call fails. -/
def analysisErrorMsg : String :=
  "An error occurred during analysis. The input may be unclear or the format unsupported. Please try again."

/-- The request `handleAnalyze` would dispatch from state `s`: the
`if (inputMode === 'upload' && file) ... else if ((inputMode === 'text' || inputMode === 'voice') && inputText.trim()) ...`
chain, with `none` for the local-rejection branch. -/
def requestOf (s : AppState) : Option GenContents :=
  if s.inputMode = InputMode.upload then
    match s.file with
    | some f => some (analyzeHealthDocument (fileToBase64 f).2 (fileToBase64 f).1)
    | none => none
  else
    if (s.inputMode = InputMode.text ∨ s.inputMode = InputMode.voice) ∧ jsTrim s.inputText ≠ "" then
      some (analyzeHealthText s.inputText)
    else none

/-- `handleAnalyze`, run to completion: clear the previous analysis, set
loading, then either reject locally (no outbound call) or dispatch the
request and fold in the remote outcome `o`.  Returns the final state and
the request that was sent, if any. -/
def handleAnalyzeFull (parse : String → Option AnalysisResult) (s : AppState) (o : ApiOutcome) :
    AppState × Option GenContents :=
  let s1 := { clearAnalysis s with isLoading := true }
  match requestOf s1 with
  | none => ({ s1 with error := some inputErrorMsg, isLoading := false }, none)
  | some req =>
    match performAnalysis parse o with
    | Except.ok r => ({ s1 with analysisResult := some r, isLoading := false }, some req)
    | Except.error _ => ({ s1 with error := some analysisErrorMsg, isLoading := false }, some req)

/-- `isAnalyzeDisabled`. -/
def isAnalyzeDisabled (s : AppState) : Bool :=
  s.isLoading
    || (decide (s.inputMode = InputMode.upload) && s.file.isNone)
    || (decide (s.inputMode ≠ InputMode.upload) && decide (jsTrim s.inputText = ""))

/-- `toggleRecording`: error when unsupported; stop when recording; else
clear a displayed analysis and start recording. -/
def toggleRecording (supported : Bool) (s : AppState) : AppState :=
  if !supported then
    { s with error := some "Speech recognition is not supported in your browser." }
  else if s.isRecording then
    { s with isRecording := false }
  else
    let s1 := if s.analysisResult.isSome || s.error.isSome then clearAnalysis s else s
    { s1 with isRecording := true }

/-! ### Speech recognition (recognition.onresult) -/

/-- One element of `event.results`, reduced to the fields the handler
reads: `isFinal` and the first alternative transcript `[0].transcript`. -/
structure SpeechResult where
  isFinal : Bool
  transcript : String
deriving DecidableEq, Repr

/-- A `SpeechRecognitionEvent`: `resultIndex` and the `results` list. -/
structure SpeechEvent where
  resultIndex : Nat
  results : List SpeechResult
deriving DecidableEq, Repr

/-- The accumulation loop of `recognition.onresult`: walk the results,
appending final transcripts to `ft` and interim ones to `it`. -/
def collectLoop (ft it : String) : List SpeechResult → String × String
  | [] => (ft, it)
  | r :: rest =>
    if r.isFinal then collectLoop (ft ++ r.transcript) it rest
    else collectLoop ft (it ++ r.transcript) rest

/-- `recognition.onresult`: loop from `resultIndex` over `results`, then
`setInputText(prev => prev + finalTranscript)`. -/
def onSpeechResult (ev : SpeechEvent) (s : AppState) : AppState :=
  { s with
    inputText := s.inputText ++ (collectLoop "" "" (ev.results.drop ev.resultIndex)).1 }

/-- Concatenation of the transcripts of the finalized results, in order
(specification-side description of what the loop accumulates). -/
def finalTranscriptOf : List SpeechResult → String
  | [] => ""
  | r :: rest => (if r.isFinal then r.transcript else "") ++ finalTranscriptOf rest

/-! ### Result rendering (the tabbed result view of App.tsx) -/

/-- What one result tab displays: either the rendered list of findings,
in order, or that tab's dedicated no-findings message. -/
inductive TabContent (α : Type) where
  | findings (items : List α)
  | noFindings (msg : String)
deriving DecidableEq, Repr

/-- No-findings message of the Error Analysis tab. -/
def noErrorsMsg : String :=
  "No potential medication errors were identified based on the provided document."

/-- No-findings message of the Drug Deep-Dive tab. -/
def noDrugsMsg : String :=
  "No specific drug information could be extracted from the document."

/-- No-findings message of the Lab Insights tab. -/
def noLabsMsg : String :=
  "No lab values were identified or interpreted from the document."

/-- The tab bar rendered when a result is shown: exactly three tabs. -/
def renderedTabs : List Tab := [Tab.errors, Tab.drugs, Tab.labs]

/-- Content of the errors tab:
`(analysisResult.potentialErrors?.length || 0) > 0 ? map : message`. -/
def renderErrorsTab (r : AnalysisResult) : TabContent PotentialError :=
  if r.potentialErrors.length > 0 then TabContent.findings r.potentialErrors
  else TabContent.noFindings noErrorsMsg

/-- Content of the drugs tab. -/
def renderDrugsTab (r : AnalysisResult) : TabContent DrugInfo :=
  if r.drugInformation.length > 0 then TabContent.findings r.drugInformation
  else TabContent.noFindings noDrugsMsg

/-- Content of the labs tab. -/
def renderLabsTab (r : AnalysisResult) : TabContent LabValue :=
  if r.labInterpretation.length > 0 then TabContent.findings r.labInterpretation
  else TabContent.noFindings noLabsMsg

/-! ### Session transition system (for the single-request discipline) -/

/-- Whole-session state: the UI state plus the number of analysis
requests currently awaiting a response. -/
structure SysState where
  ui : AppState
  inFlight : Nat
deriving DecidableEq, Repr

/-- User and environment actions driving the session. -/
inductive SysAction where
  | clickAnalyze
  | complete (outcome : Except String AnalysisResult)
  | switchMode (m : InputMode)
  | editText (v : String)
  | pickFile (f : JsFile)
  | speech (ev : SpeechEvent)
  | toggleRec (supported : Bool)

/-- Clicking the analyze button: a no-op while the button is disabled;
otherwise the synchronous prefix of `handleAnalyze` runs, and a request
enters flight exactly when the input validates. -/
def clickAnalyzeStep (s : SysState) : SysState :=
  if isAnalyzeDisabled s.ui then s
  else
    let ui1 := { clearAnalysis s.ui with isLoading := true }
    match requestOf ui1 with
    | some _ => { ui := ui1, inFlight := s.inFlight + 1 }
    | none =>
      { ui := { ui1 with error := some inputErrorMsg, isLoading := false }
        inFlight := s.inFlight }

/-- An outstanding request resolves: the continuation of `handleAnalyze`
after the `await` stores the result or the generic error and always
resets `isLoading` in the `finally` block. -/
def completeStep (outcome : Except String AnalysisResult) (s : SysState) : SysState :=
  match s.inFlight with
  | 0 => s
  | n + 1 =>
    match outcome with
    | Except.ok r =>
      { ui := { s.ui with analysisResult := some r, isLoading := false }, inFlight := n }
    | Except.error _ =>
      { ui := { s.ui with error := some analysisErrorMsg, isLoading := false }, inFlight := n }

/-- One step of the session transition system. -/
def sysStep (s : SysState) : SysAction → SysState
  | SysAction.clickAnalyze => clickAnalyzeStep s
  | SysAction.complete o => completeStep o s
  | SysAction.switchMode m => { s with ui := setInputMode m s.ui }
  | SysAction.editText v => { s with ui := handleTextChange v s.ui }
  | SysAction.pickFile f => { s with ui := handleFileChange (some f) s.ui }
  | SysAction.speech ev => { s with ui := onSpeechResult ev s.ui }
  | SysAction.toggleRec b => { s with ui := toggleRecording b s.ui }

/-- The session starts with the initial UI state and nothing in flight. -/
def initSysState : SysState := { ui := initAppState, inFlight := 0 }

/-- States reachable by some sequence of session actions. -/
inductive Reachable : SysState → Prop
  | init : Reachable initSysState
  | step (s : SysState) (a : SysAction) : Reachable s → Reachable (sysStep s a)

/-! ### Concrete sample values used by the witness theorems -/

/-- A sample potential-error finding. -/
def demoError : PotentialError :=
  { errorType := "Incorrect Dose"
    riskLevel := RiskLevel.High
    error := "Dose exceeds the recommended maximum."
    explanation := "Per dosing guidelines the prescribed dose is above the ceiling." }

/-- A sample analysis result with findings only in the errors tab. -/
def demoResult : AnalysisResult :=
  { potentialErrors := [demoError], drugInformation := [], labInterpretation := [] }

/-- A sample selected image file, via its reader data URL. -/
def demoFile : JsFile := { dataUrl := "data:image/png;base64,iVBORw0KGgo" }

/-- A sample parsing oracle: parses the body `ok` and nothing else. -/
def demoParse (s : String) : Option AnalysisResult :=
  if s = "ok" then some demoResult else none

/-- Upload-mode state with a selected file. -/
def demoUploadState : AppState := { initAppState with file := some demoFile }

/-- Text-mode state with non-blank text. -/
def demoTextState : AppState :=
  { initAppState with inputMode := InputMode.text, inputText := "Rx: Metformin 500mg PO BID" }

/-- A state currently displaying an analysis result. -/
def resultShownState : AppState := { initAppState with analysisResult := some demoResult }

/-- A speech event whose window (from `resultIndex` on) holds one final
and one interim segment. -/
def demoSpeechEvent : SpeechEvent :=
  { resultIndex := 1
    results := [⟨true, "already delivered"⟩, ⟨true, " follow up"⟩, ⟨false, "interim words"⟩] }

/-- A speech event carrying only interim (non-final) segments. -/
def demoInterimEvent : SpeechEvent :=
  { resultIndex := 0, results := [⟨false, "interim words"⟩] }

/-! ### Shared lemmas -/

/-- `clearAnalysis` and setting `isLoading` do not touch the fields
`requestOf` reads, so the request dispatched by `handleAnalyze` is
determined by the pre-click state. -/
theorem requestOf_clear (s : AppState) :
    requestOf { clearAnalysis s with isLoading := true } = requestOf s := rfl

/-- The request component of `handleAnalyzeFull` is exactly `requestOf`. -/
theorem handleAnalyzeFull_snd (parse : String → Option AnalysisResult) (s : AppState)
    (o : ApiOutcome) : (handleAnalyzeFull parse s o).2 = requestOf s := by
  simp only [handleAnalyzeFull, requestOf_clear]
  cases hr : requestOf s with
  | none => rfl
  | some req => cases performAnalysis parse o <;> rfl

/-- Every failure outcome makes `performAnalysis` return the generic
service error. -/
theorem performAnalysis_failure (parse : String → Option AnalysisResult) (o : ApiOutcome)
    (h : isFailureOutcome parse o = true) :
    performAnalysis parse o = Except.error apiErrorMsg := by
  cases o with
  | throws => rfl
  | ok t =>
    by_cases ht : t = ""
    · simp [performAnalysis, ht]
    · have hp : parse (stripFences t) = none := by
        simpa [isFailureOutcome, ht] using h
      simp [performAnalysis, ht, hp]

/-- `handleTextChange` always leaves no result and no error displayed. -/
theorem handleTextChange_clears (v : String) (s : AppState) :
    (handleTextChange v s).analysisResult = none ∧ (handleTextChange v s).error = none := by
  simp only [handleTextChange]
  split
  · exact ⟨rfl, rfl⟩
  · next h =>
    simp only [Bool.or_eq_true] at h
    push_neg at h
    exact ⟨Option.not_isSome_iff_eq_none.mp h.1, Option.not_isSome_iff_eq_none.mp h.2⟩

/-- The accumulation loop returns its final-transcript accumulator
extended by the final transcripts of the remaining results, in order. -/
theorem collectLoop_fst (rs : List SpeechResult) :
    ∀ ft it, (collectLoop ft it rs).1 = ft ++ finalTranscriptOf rs := by
  induction rs with
  | nil => intro ft it; simp [collectLoop, finalTranscriptOf]
  | cons r rest ih =>
    intro ft it
    by_cases h : r.isFinal
    · simp [collectLoop, finalTranscriptOf, h, ih, String.append_assoc]
    · simp [collectLoop, finalTranscriptOf, h, ih]

/-- A list without finalized results contributes no final transcript. -/
theorem finalTranscriptOf_interim (rs : List SpeechResult)
    (h : ∀ r ∈ rs, r.isFinal = false) : finalTranscriptOf rs = "" := by
  induction rs with
  | nil => rfl
  | cons r rest ih =>
    have hr : r.isFinal = false := h r (List.mem_cons_self r rest)
    simp [finalTranscriptOf, hr, ih fun x hx => h x (List.mem_cons_of_mem r hx)]

/-- `handleTextChange` never touches `isLoading`. -/
theorem handleTextChange_isLoading (v : String) (s : AppState) :
    (handleTextChange v s).isLoading = s.isLoading := by
  simp only [handleTextChange]
  split <;> rfl

/-- `toggleRecording` never touches `isLoading`. -/
theorem toggleRecording_isLoading (b : Bool) (s : AppState) :
    (toggleRecording b s).isLoading = s.isLoading := by
  simp only [toggleRecording]
  split
  · rfl
  · split
    · rfl
    · split <;> rfl

/-- A loading state always disables the analyze button. -/
theorem isLoading_disables (u : AppState) (h : u.isLoading = true) :
    isAnalyzeDisabled u = true := by
  simp [isAnalyzeDisabled, h]

/-- Invariant of the session system: the number of requests in flight is
`1` while the UI is loading and `0` otherwise. -/
theorem reachable_flight_loading (s : SysState) (h : Reachable s) :
    s.inFlight = (if s.ui.isLoading = true then 1 else 0) := by
  induction h with
  | init => rfl
  | step s a _ ih =>
    cases a with
    | clickAnalyze =>
      simp only [sysStep, clickAnalyzeStep]
      by_cases hd : isAnalyzeDisabled s.ui = true
      · simp [hd, ih]
      · have hl : s.ui.isLoading = false := by
          cases hb : s.ui.isLoading with
          | false => rfl
          | true => exact absurd (isLoading_disables s.ui hb) hd
        cases hr : requestOf { clearAnalysis s.ui with isLoading := true } <;>
          simp [hd, hr, ih, hl]
    | complete o =>
      obtain ⟨ui, k⟩ := s
      simp only [sysStep, completeStep]
      cases k with
      | zero => simpa using ih
      | succ n =>
        have hl : ui.isLoading = true := by
          by_cases h2 : ui.isLoading = true
          · exact h2
          · simp [h2] at ih
        have hn0 : n = 0 := by
          simp [hl] at ih
          omega
        cases o <;> simp [hn0]
    | switchMode m => simpa [sysStep, setInputMode] using ih
    | editText v => simpa [sysStep, handleTextChange_isLoading] using ih
    | pickFile f => simpa [sysStep, handleFileChange, clearAnalysis] using ih
    | speech ev => simpa [sysStep, onSpeechResult] using ih
    | toggleRec b => simpa [sysStep, toggleRecording_isLoading] using ih

/-! ### Claim theorems -/

/-- C1: In upload mode with a selected file, `handleAnalyze` encodes the
file via `fileToBase64` and the outbound request carries the encoded image
as an inline part alongside the prompt part; in text or voice mode with
non-blank text, the outbound request consists of text parts only (the
prompt with the buffer text embedded) and carries no image part. -/
theorem analyze_request_matches_mode (parse : String → Option AnalysisResult)
    (s : AppState) (o : ApiOutcome) :
    (∀ f : JsFile, s.inputMode = InputMode.upload → s.file = some f →
      ∃ c, (handleAnalyzeFull parse s o).2 = some c ∧
        ContentPart.inlineData (fileToBase64 f).2 (fileToBase64 f).1 ∈ c.parts ∧
        ContentPart.text documentPrompt ∈ c.parts) ∧
    (s.inputMode ≠ InputMode.upload → jsTrim s.inputText ≠ "" →
      ∃ c, (handleAnalyzeFull parse s o).2 = some c ∧
        ContentPart.text (textModePrompt s.inputText) ∈ c.parts ∧
        ∀ p ∈ c.parts, ∃ t, p = ContentPart.text t) := by
  constructor
  · intro f hm hf
    refine ⟨analyzeHealthDocument (fileToBase64 f).2 (fileToBase64 f).1, ?_, ?_, ?_⟩
    · rw [handleAnalyzeFull_snd]
      simp [requestOf, hm, hf]
    · simp [analyzeHealthDocument]
    · simp [analyzeHealthDocument]
  · intro hm ht
    refine ⟨analyzeHealthText s.inputText, ?_, ?_, ?_⟩
    · rw [handleAnalyzeFull_snd]
      cases hmode : s.inputMode with
      | upload => exact absurd hmode hm
      | text => simp [requestOf, hmode, ht]
      | voice => simp [requestOf, hmode, ht]
    · simp [analyzeHealthText]
    · intro p hp
      simp [analyzeHealthText] at hp
      exact ⟨textModePrompt s.inputText, hp⟩

/-- C1 witness: a concrete upload submission carries the encoded image
plus the prompt, and a concrete text submission carries text parts only. -/
theorem analyze_request_matches_mode_witness :
    (∃ c, (handleAnalyzeFull demoParse demoUploadState ApiOutcome.throws).2 = some c ∧
      ContentPart.inlineData (fileToBase64 demoFile).2 (fileToBase64 demoFile).1 ∈ c.parts ∧
      ContentPart.text documentPrompt ∈ c.parts) ∧
    (∃ c, (handleAnalyzeFull demoParse demoTextState ApiOutcome.throws).2 = some c ∧
      ContentPart.text (textModePrompt demoTextState.inputText) ∈ c.parts ∧
      ∀ p ∈ c.parts, ∃ t, p = ContentPart.text t) :=
  ⟨(analyze_request_matches_mode demoParse demoUploadState ApiOutcome.throws).1
      demoFile rfl rfl,
   (analyze_request_matches_mode demoParse demoTextState ApiOutcome.throws).2
      (by decide) (by decide)⟩

/-- C2: whenever an analysis attempt dispatches a request and the outcome
is one of the three failure kinds (the call throws, the body is empty, or
the body fails to parse), the final UI state shows exactly the single
generic error string and no analysis result. -/
theorem failure_yields_generic_error_and_no_result
    (parse : String → Option AnalysisResult) (s : AppState) (o : ApiOutcome)
    (hreq : (handleAnalyzeFull parse s o).2.isSome = true)
    (hfail : isFailureOutcome parse o = true) :
    (handleAnalyzeFull parse s o).1.error = some analysisErrorMsg ∧
    (handleAnalyzeFull parse s o).1.analysisResult = none := by
  have hp := performAnalysis_failure parse o hfail
  rw [handleAnalyzeFull_snd] at hreq
  constructor <;>
  · simp only [handleAnalyzeFull, requestOf_clear]
    cases hr : requestOf s with
    | none => rw [hr] at hreq; exact absurd hreq (by simp)
    | some req => simp [hp, clearAnalysis]

/-- C2 witness: a thrown call on a concrete upload submission ends with
the generic error shown and no result. -/
theorem failure_yields_generic_error_and_no_result_witness :
    (handleAnalyzeFull demoParse demoUploadState ApiOutcome.throws).1.error =
      some analysisErrorMsg ∧
    (handleAnalyzeFull demoParse demoUploadState ApiOutcome.throws).1.analysisResult = none :=
  failure_yields_generic_error_and_no_result demoParse demoUploadState ApiOutcome.throws
    (by decide) rfl

/-- C3 counterexample: switching the input mode does not clear a
displayed analysis result — from a state showing a result, clicking the
text-mode tab leaves the result displayed, contradicting the claim that
mode switching leaves `analysisResult` null. -/
theorem mode_switch_preserves_displayed_result :
    resultShownState.analysisResult ≠ none ∧
    (setInputMode InputMode.text resultShownState).analysisResult ≠ none := by
  constructor <;> simp [setInputMode, resultShownState, initAppState]

/-- C3 amended: editing the input (a text change, or selecting a file)
always leaves the state with `analysisResult` null and `error` null, but
switching the input mode leaves both fields exactly as they were. -/
theorem editing_clears_but_mode_switch_preserves
    (s : AppState) (v : String) (f : JsFile) (m : InputMode) :
    (handleTextChange v s).analysisResult = none ∧
    (handleTextChange v s).error = none ∧
    (handleFileChange (some f) s).analysisResult = none ∧
    (handleFileChange (some f) s).error = none ∧
    (setInputMode m s).analysisResult = s.analysisResult ∧
    (setInputMode m s).error = s.error :=
  ⟨(handleTextChange_clears v s).1, (handleTextChange_clears v s).2, rfl, rfl, rfl, rfl⟩

/-- C4: with no selected file and only-whitespace text, the analyze
trigger is disabled in every input mode. -/
theorem analyze_disabled_without_input (s : AppState)
    (hf : s.file = none) (ht : jsTrim s.inputText = "") :
    isAnalyzeDisabled s = true := by
  cases hm : s.inputMode <;> simp [isAnalyzeDisabled, hf, ht, hm]

/-- C4 witness: the initial state has the trigger disabled. -/
theorem analyze_disabled_without_input_witness :
    isAnalyzeDisabled initAppState = true :=
  analyze_disabled_without_input initAppState rfl rfl

/-- C5: when the input required by the current mode is missing (upload
mode without a file, or text/voice mode with blank text), `handleAnalyze`
rejects locally: the local error message is set and no request is sent. -/
theorem missing_input_rejected_locally (parse : String → Option AnalysisResult)
    (s : AppState) (o : ApiOutcome)
    (h : (s.inputMode = InputMode.upload ∧ s.file = none) ∨
         (s.inputMode ≠ InputMode.upload ∧ jsTrim s.inputText = "")) :
    (handleAnalyzeFull parse s o).2 = none ∧
    (handleAnalyzeFull parse s o).1.error = some inputErrorMsg := by
  have hr : requestOf s = none := by
    rcases h with ⟨hm, hf⟩ | ⟨hm, ht⟩
    · simp [requestOf, hm, hf]
    · simp [requestOf, hm, ht]
  have hr1 : requestOf { clearAnalysis s with isLoading := true } = none :=
    (requestOf_clear s).trans hr
  constructor <;> simp [handleAnalyzeFull, hr1]

/-- C5 witness: the initial state (upload mode, no file) is rejected
locally with the validation message and no outbound request. -/
theorem missing_input_rejected_locally_witness :
    (handleAnalyzeFull demoParse initAppState ApiOutcome.throws).2 = none ∧
    (handleAnalyzeFull demoParse initAppState ApiOutcome.throws).1.error =
      some inputErrorMsg :=
  missing_input_rejected_locally demoParse initAppState ApiOutcome.throws
    (Or.inl ⟨rfl, rfl⟩)

/-- C6: the result view renders exactly the three tabs errors, drugs and
labs; each tab shows exactly the corresponding array of the result, in
order, and a tab with an empty array shows that tab's dedicated
no-findings message (the three messages are pairwise distinct). -/
theorem result_renders_three_tabs (r : AnalysisResult) :
    renderedTabs = [Tab.errors, Tab.drugs, Tab.labs] ∧
    (r.potentialErrors ≠ [] → renderErrorsTab r = TabContent.findings r.potentialErrors) ∧
    (r.potentialErrors = [] → renderErrorsTab r = TabContent.noFindings noErrorsMsg) ∧
    (r.drugInformation ≠ [] → renderDrugsTab r = TabContent.findings r.drugInformation) ∧
    (r.drugInformation = [] → renderDrugsTab r = TabContent.noFindings noDrugsMsg) ∧
    (r.labInterpretation ≠ [] → renderLabsTab r = TabContent.findings r.labInterpretation) ∧
    (r.labInterpretation = [] → renderLabsTab r = TabContent.noFindings noLabsMsg) ∧
    noErrorsMsg ≠ noDrugsMsg ∧ noErrorsMsg ≠ noLabsMsg ∧ noDrugsMsg ≠ noLabsMsg := by
  refine ⟨rfl, ?_, ?_, ?_, ?_, ?_, ?_, by decide, by decide, by decide⟩ <;> intro h <;>
    simp [renderErrorsTab, renderDrugsTab, renderLabsTab, h, List.length_pos, h]

/-- C6 witness: a result with one potential error and empty drug and lab
arrays renders the finding in the errors tab and the two dedicated
no-findings messages in the other tabs. -/
theorem result_renders_three_tabs_witness :
    renderErrorsTab demoResult = TabContent.findings demoResult.potentialErrors ∧
    renderDrugsTab demoResult = TabContent.noFindings noDrugsMsg ∧
    renderLabsTab demoResult = TabContent.noFindings noLabsMsg :=
  ⟨(result_renders_three_tabs demoResult).2.1 (by decide),
   (result_renders_three_tabs demoResult).2.2.2.2.1 rfl,
   (result_renders_three_tabs demoResult).2.2.2.2.2.2.1 rfl⟩

/-- C7: a speech-recognition result event appends to the text buffer
exactly the concatenated transcripts of the finalized results from
`resultIndex` onward — interim segments contribute nothing, and when no
result in the event is final the buffer is unchanged. -/
theorem speech_appends_only_final_transcripts (ev : SpeechEvent) (s : AppState) :
    (onSpeechResult ev s).inputText =
      s.inputText ++ finalTranscriptOf (ev.results.drop ev.resultIndex) ∧
    ((∀ r ∈ ev.results, r.isFinal = false) →
      (onSpeechResult ev s).inputText = s.inputText) := by
  constructor
  · simp [onSpeechResult, collectLoop_fst]
  · intro h
    have : finalTranscriptOf (ev.results.drop ev.resultIndex) = "" :=
      finalTranscriptOf_interim _ fun r hr => h r (List.mem_of_mem_drop hr)
    simp [onSpeechResult, collectLoop_fst, this]

/-- C7 witness: a concrete event appends only the final segment of its
window, and an all-interim event leaves the buffer untouched. -/
theorem speech_appends_only_final_transcripts_witness :
    (onSpeechResult demoSpeechEvent demoTextState).inputText =
      demoTextState.inputText ++ " follow up" ∧
    (onSpeechResult demoInterimEvent demoTextState).inputText =
      demoTextState.inputText := by
  constructor
  · rw [(speech_appends_only_final_transcripts demoSpeechEvent demoTextState).1]
    decide
  · exact (speech_appends_only_final_transcripts demoInterimEvent demoTextState).2
      (by decide)

/-- C8: the analyze trigger is disabled whenever `isLoading` holds, and
in every reachable session state at most one analysis request is
outstanding — no action sequence produces two requests in flight. -/
theorem at_most_one_request_outstanding :
    (∀ u : AppState, u.isLoading = true → isAnalyzeDisabled u = true) ∧
    (∀ s : SysState, Reachable s → s.inFlight ≤ 1) := by
  constructor
  · exact isLoading_disables
  · intro s h
    have := reachable_flight_loading s h
    split at this <;> omega

/-- C8 witness: the loading state disables the trigger, and the initial
session state has at most one request in flight. -/
theorem at_most_one_request_outstanding_witness :
    isAnalyzeDisabled { initAppState with isLoading := true } = true ∧
    initSysState.inFlight ≤ 1 :=
  ⟨at_most_one_request_outstanding.1 { initAppState with isLoading := true } rfl,
   at_most_one_request_outstanding.2 initSysState Reachable.init⟩

/-- C9: a non-empty response body that parses after the fence-stripping
step (delete every three-backtick-json and three-backtick occurrence,
then trim) makes `performAnalysis` return the parsed object instead of
treating the response as malformed. -/
theorem fenced_json_response_parses (parse : String → Option AnalysisResult)
    (t : String) (r : AnalysisResult)
    (hne : t ≠ "") (hp : parse (stripFences t) = some r) :
    performAnalysis parse (ApiOutcome.ok t) = Except.ok r := by
  simp [performAnalysis, hne, hp]

/-- C9 witness: a concrete fenced body strips to its inner text and is
parsed successfully. -/
theorem fenced_json_response_parses_witness :
    stripFences "```json\nok\n```" = "ok" ∧
    performAnalysis demoParse (ApiOutcome.ok "```json\nok\n```") = Except.ok demoResult :=
  ⟨by decide,
   fenced_json_response_parses demoParse "```json\nok\n```" demoResult
     (by decide) (by decide)⟩

/-- C10: with `API_KEY` unset (or empty, which is equally falsy), the
service module throws its key error at load time, so no loaded module —
and hence no call to `analyzeHealthDocument` or `analyzeHealthText`
through it — can exist without a configured key. -/
theorem missing_api_key_fails_module_load (env : Option String)
    (h : env = none ∨ env = some "") :
    loadGeminiService env = Except.error keyErrorMsg ∧
    ∀ m : GeminiModule, loadGeminiService env ≠ Except.ok m := by
  have he : loadGeminiService env = Except.error keyErrorMsg := by
    rcases h with h | h <;> subst h <;> rfl
  exact ⟨he, fun m hm => by rw [he] at hm; exact Except.noConfusion hm⟩

/-- C10 witness: the unset environment fails to load the module. -/
theorem missing_api_key_fails_module_load_witness :
    loadGeminiService none = Except.error keyErrorMsg ∧
    ∀ m : GeminiModule, loadGeminiService none ≠ Except.ok m :=
  missing_api_key_fails_module_load none (Or.inl rfl)
